import Mathlib

/-!
# Verification of the `wtc-horizontal-scroll` widget (`src/index.js`)

A shallow embedding of the `HorizontalScroll` class. Pixel geometry
(widths, gaps, padding, scroll offsets) is modelled with `ℚ`; DOM class
lists with `List String` under DOMTokenList semantics (`add` is a no-op
when the token is present, `remove` drops every occurrence); element
`data-` attributes with `Option String` (`none` = attribute absent);
fallible geometry reads (`this.items[0]`, a failed `Array.find`) with
`Option`; the debounce timer with an `Option ℕ` deadline over a discrete
millisecond clock.
-/

namespace HorizontalScroll

/-- DOMTokenList.add: appends the token unless it is already present. -/
def classListAdd (classes : List String) (c : String) : List String :=
  if c ∈ classes then classes else classes ++ [c]

/-- DOMTokenList.remove: drops every occurrence of the token. -/
def classListRemove (classes : List String) (c : String) : List String :=
  classes.filter (fun x => x ≠ c)

/--
`itemReducer` (src/index.js:211-218): accumulates each item's rendered
width plus its preceding gap, taking `--list-pad` for the 0th item and
`--item-gap` for every later one.  `itemsTotalWidth` is
`this.items.reduce(this.itemReducer, 0)` over the item widths.
-/
def itemsTotalWidth (widths : List ℚ) (itemGap listPad : ℚ) : ℚ :=
  (widths.enum).foldl
    (fun total p => total + p.2 + (if p.1 = 0 then listPad else itemGap)) 0

/--
`adjustAlignment` (src/index.js:225-231): compares the reduced item width
against the element's rendered width; removes the
`--center-items` modifier when the content overflows, adds it otherwise.
-/
def adjustAlignmentClasses (widths : List ℚ) (itemGap listPad elementWidth : ℚ)
    (base : String) (classes : List String) : List String :=
  if itemsTotalWidth widths itemGap listPad > elementWidth then
    classListRemove classes (base ++ "--center-items")
  else
    classListAdd classes (base ++ "--center-items")

/-- The live geometry queried from one item element: `offsetWidth` and
`getBoundingClientRect().x`. -/
structure ItemGeom where
  offsetWidth : ℚ
  rectX : ℚ
deriving DecidableEq, Repr

/-- The `Array.find` of src/index.js:245-247: the first item whose
bounding-rect x is at or past half the inter-item gap, paired with its
index (the index stands in for the JS reference comparison
`leftmostItem === this.items[0]`). -/
def findLeftmost (items : List ItemGeom) (itemGap : ℚ) : Option (ℕ × ItemGeom) :=
  (items.enum).find? (fun p => decide (itemGap / 2 ≤ p.2.rectX))

/-- The arithmetic core of `calculateNewScrollPosition`
(src/index.js:255-297), once `this.items[0].offsetWidth` and the leftmost
fully visible item (index `i`, rect x `leftmostItemX`) have been read. -/
def newScrollCore (itemWidth : ℚ) (i : ℕ) (leftmostItemX : ℚ)
    (scrollLeft itemGap listPad scrollIncrement : ℚ) (direction : Bool) : ℚ :=
  let leftPad := if i = 0 then listPad else itemGap / 2
  let incrementMultiplier :=
    if leftmostItemX = leftPad then scrollIncrement else scrollIncrement - 1
  if direction then
    scrollLeft + leftmostItemX +
      incrementMultiplier * (itemWidth + itemGap) - itemGap / 2
  else
    if scrollLeft ≤ itemWidth + listPad + itemGap / 2 then
      0
    else if incrementMultiplier < 1 then
      scrollLeft - (itemWidth + itemGap - leftmostItemX + leftPad) -
        incrementMultiplier * (itemWidth + itemGap)
    else
      scrollLeft - incrementMultiplier * (itemWidth + itemGap)

/--
`calculateNewScrollPosition` (src/index.js:241-298).  Inputs are the item
geometry list, `this.list.scrollLeft`, the cached `--item-gap` and
`--list-pad` metrics, the configured `scrollIncrement`, and the direction
flag (`true` = next, `false` = previous).  `none` models the undefined
cases of the source: an empty item list (`this.items[0]` is undefined) or
a failed `Array.find` (`leftmostItem.getBoundingClientRect()` throws).
-/
def calculateNewScrollPosition (items : List ItemGeom)
    (scrollLeft itemGap listPad scrollIncrement : ℚ) (direction : Bool) :
    Option ℚ :=
  match items with
  | [] => none
  | first :: _ =>
    (findLeftmost items itemGap).map fun il =>
      newScrollCore first.offsetWidth il.1 il.2.rectX
        scrollLeft itemGap listPad scrollIncrement direction

/-- `updateScrollPosition` (src/index.js:307-319), modelled as the tween
invocation it delegates to: `(initialPos, newPos, duration)`.  The
duration is 1 under a `prefers-reduced-motion: reduce` match and 400
otherwise; `none` when the offset calculation is undefined. -/
def updateScrollPlan (items : List ItemGeom)
    (scrollLeft itemGap listPad scrollIncrement : ℚ)
    (direction prefersReducedMotion : Bool) : Option (ℚ × ℚ × ℕ) :=
  match calculateNewScrollPosition items scrollLeft itemGap listPad
      scrollIncrement direction with
  | none => none
  | some newPos =>
    some (scrollLeft, newPos, if prefersReducedMotion then 1 else 400)

/-- Class-field default (src/index.js:12): `navigation = true`. -/
def navigationDefault : Bool := true

/-- Class-field default (src/index.js:19): `scrollSnap = false`. -/
def scrollSnapDefault : Bool := false

/-- Class-field default (src/index.js:18): `scrollIncrement = 1`. -/
def scrollIncrementDefault : ℚ := 1

/-- src/index.js:94: `if (navigation === "false" || navigation === false)
this.navigation = false` — with the value coming from the `data-navigation`
attribute (`Option String`), only the exact string "false" flips the
default. -/
def resolveNavigation (attr : Option String) : Bool :=
  if attr = some "false" then false else navigationDefault

/-- src/index.js:106: `if (scrollSnap && scrollSnap !== "false")
this.scrollSnap = true` — an absent attribute (undefined) and the empty
string are falsy; any other string except "false" enables snapping. -/
def resolveScrollSnap (attr : Option String) : Bool :=
  match attr with
  | none => scrollSnapDefault
  | some s => if s ≠ "" ∧ s ≠ "false" then true else scrollSnapDefault

def parseDigitsAux : List Char → ℕ → Option ℕ
  | [], acc => some acc
  | c :: cs, acc =>
    if c.isDigit then parseDigitsAux cs (acc * 10 + (c.toNat - 48)) else none

/-- A nonempty all-digit character run parsed as a natural number. -/
def parseDigits (cs : List Char) : Option ℕ :=
  match cs with
  | [] => none
  | _ => parseDigitsAux cs 0

/-- Models the JS `Number()` coercion of src/index.js:82 on the
`data-scroll-increment` attribute, restricted to the integer strings the
option documents: an absent attribute is `Number(undefined)` = NaN
(`none`); the empty string coerces to 0; an optional minus sign followed
by digits parses; every other string is NaN (`none`). -/
def jsNumberOfAttr (attr : Option String) : Option ℚ :=
  match attr with
  | none => none
  | some s =>
    if s = "" then some 0
    else
      match s.data with
      | '-' :: rest => (parseDigits rest).map (fun n => -(n : ℚ))
      | cs => (parseDigits cs).map (fun n => (n : ℚ))

/-- src/index.js:104-105: `if (scrollIncrement && !isNaN(scrollIncrement))
this.scrollIncrement = scrollIncrement` — NaN and 0 are falsy, so the
default survives them.  Total: no branch throws. -/
def resolveScrollIncrement (attr : Option String) : ℚ :=
  match jsNumberOfAttr attr with
  | none => scrollIncrementDefault
  | some q => if q ≠ 0 then q else scrollIncrementDefault

/-- The resolved configuration record held on the instance after
construction (the class fields, src/index.js:9-19). -/
structure Config where
  baseClassName : String
  navigation : Bool
  navigationHiddenTextPrev : String
  navigationHiddenTextNext : String
  navigationLabel : String
  navigationVisualContentPrev : String
  navigationVisualContentNext : String
  scrollIncrement : ℚ
  scrollSnap : Bool
deriving DecidableEq, Repr

/-- One synthesized navigation button (src/index.js:141-188): direction
marker, class names, visual glyph content, visually hidden text with its
class, and whether a click listener was attached to it. -/
structure NavButton where
  dir : ℕ
  classes : List String
  visualContent : String
  hiddenText : String
  hiddenTextClasses : List String
  hasClickListener : Bool
deriving DecidableEq, Repr

/-- The synthesized `<nav>` landmark (src/index.js:140-194). -/
structure NavMarkup where
  ariaLabel : Option String
  classes : List String
  prevButton : NavButton
  nextButton : NavButton
deriving DecidableEq, Repr

/-- The navigation branch of the constructor (src/index.js:139-199):
when `this.navigation` is set, build the nav landmark, its two buttons
with dir markers 0/1, hidden texts and glyph contents, and attach a click
listener to each; otherwise build nothing. -/
def buildNavigation (cfg : Config) : Option NavMarkup :=
  if cfg.navigation then
    some
      { ariaLabel :=
          if cfg.navigationLabel ≠ "" then some cfg.navigationLabel else none
        classes := [cfg.baseClassName ++ "__nav"]
        prevButton :=
          { dir := 0
            classes := [cfg.baseClassName ++ "__nav-button",
              cfg.baseClassName ++ "__nav-button--prev"]
            visualContent := cfg.navigationVisualContentPrev
            hiddenText := cfg.navigationHiddenTextPrev
            hiddenTextClasses := [cfg.baseClassName ++ "__visually-hidden"]
            hasClickListener := true }
        nextButton :=
          { dir := 1
            classes := [cfg.baseClassName ++ "__nav-button",
              cfg.baseClassName ++ "__nav-button--next"]
            visualContent := cfg.navigationVisualContentNext
            hiddenText := cfg.navigationHiddenTextNext
            hiddenTextClasses := [cfg.baseClassName ++ "__visually-hidden"]
            hasClickListener := true } }
  else none

/-- Effect of construction on the container's child list
(src/index.js:194): `insertAdjacentElement("afterbegin", nav)` prepends
the nav landmark when navigation is enabled; otherwise the children are
untouched. -/
def constructorChildren (cfg : Config) (children : List String) : List String :=
  if cfg.navigation then "nav" :: children else children

/-- Click listeners registered during construction (src/index.js:197-198):
one per nav button when navigation is enabled, none otherwise. -/
def constructorClickListenerCount (cfg : Config) : ℕ :=
  if cfg.navigation then 2 else 0

/-- The snap-modifier step of construction (src/index.js:134-136):
`this.scrollSnap && this.element.classList.add(base + "--snap")`. -/
def constructorSnapClasses (base : String) (scrollSnap : Bool)
    (classes : List String) : List String :=
  if scrollSnap then classListAdd classes (base ++ "--snap") else classes

/-- The two layout metrics read from computed style custom properties
(`--item-gap`, `--list-pad`). -/
structure ComputedStyle where
  itemGapPx : ℚ
  listPadPx : ℚ
deriving DecidableEq, Repr

/-- The per-instance state the resize logic touches: the debounce timer
(deadline of the pending `setTimeout`, if any), the cached metrics, the
item and element geometry, the element's class list, and a counter of
executed recomputations. -/
structure WidgetState where
  resizeTimer : Option ℕ
  itemGap : ℚ
  listPad : ℚ
  itemWidths : List ℚ
  elementWidth : ℚ
  baseClassName : String
  classes : List String
  recomputeCount : ℕ
deriving DecidableEq, Repr

/-- `handleResize` (src/index.js:336-347): clear any pending timer and
schedule the recomputation 250 ms after the event. -/
def handleResize (now : ℕ) (s : WidgetState) : WidgetState :=
  { s with resizeTimer := some (now + 250) }

/-- The body of the `setTimeout` callback (src/index.js:338-346): re-read
`--item-gap` and `--list-pad` from computed style, then run
`adjustAlignment` with the fresh metrics.  `recomputeCount` counts
executions. -/
def resizeTimerCallback (style : ComputedStyle) (s : WidgetState) :
    WidgetState :=
  { s with
    resizeTimer := none
    itemGap := style.itemGapPx
    listPad := style.listPadPx
    classes := adjustAlignmentClasses s.itemWidths style.itemGapPx
      style.listPadPx s.elementWidth s.baseClassName s.classes
    recomputeCount := s.recomputeCount + 1 }

/-- Time reaching `now`: the pending timer fires exactly when its deadline
has arrived without an intervening `handleResize` having replaced it. -/
def elapse (style : ComputedStyle) (now : ℕ) (s : WidgetState) : WidgetState :=
  match s.resizeTimer with
  | some d => if d ≤ now then resizeTimerCallback style s else s
  | none => s

/-! ## Helper lemmas -/

theorem mem_classListAdd_self (classes : List String) (c : String) :
    c ∈ classListAdd classes c := by
  unfold classListAdd
  by_cases h : c ∈ classes <;> simp [h]

theorem not_mem_classListRemove_self (classes : List String) (c : String) :
    c ∉ classListRemove classes c := by
  unfold classListRemove
  simp

theorem mem_classListAdd_of_mem (classes : List String) (c c' : String)
    (h : c ∈ classes) : c ∈ classListAdd classes c' := by
  unfold classListAdd
  by_cases h' : c' ∈ classes <;> simp [h', h]

theorem mem_classListRemove_of_mem_ne (classes : List String) (c c' : String)
    (h : c ∈ classes) (hne : c ≠ c') : c ∈ classListRemove classes c' := by
  unfold classListRemove
  simp [List.mem_filter, h, hne]

theorem snap_ne_center (base : String) :
    base ++ "--snap" ≠ base ++ "--center-items" := by
  intro h
  have hlen := congrArg String.length h
  simp only [String.length_append] at hlen
  have h1 : "--snap".length = 6 := rfl
  have h2 : "--center-items".length = 14 := rfl
  omega

theorem mem_adjustAlignmentClasses_of_mem_ne (widths : List ℚ)
    (itemGap listPad elementWidth : ℚ) (base c : String)
    (classes : List String) (h : c ∈ classes)
    (hne : c ≠ base ++ "--center-items") :
    c ∈ adjustAlignmentClasses widths itemGap listPad elementWidth base
      classes := by
  unfold adjustAlignmentClasses
  by_cases hov : itemsTotalWidth widths itemGap listPad > elementWidth
  · simp only [hov, if_true]
    exact mem_classListRemove_of_mem_ne classes c _ h hne
  · simp only [hov, if_false]
    exact mem_classListAdd_of_mem classes c _ h

theorem findLeftmost_isSome_aux (g : ℚ) :
    ∀ (n : ℕ) (l : List ItemGeom),
      ((l.enumFrom n).find? (fun p => decide (g / 2 ≤ p.2.rectX))).isSome =
        l.any (fun x => decide (g / 2 ≤ x.rectX)) := by
  intro n l
  induction l generalizing n with
  | nil => simp [List.enumFrom, List.find?]
  | cons x xs ih =>
    simp only [List.enumFrom, List.find?, List.any_cons]
    by_cases h : g / 2 ≤ x.rectX
    · simp [h]
    · simp [h, ih]

theorem findLeftmost_isSome (l : List ItemGeom) (g : ℚ) :
    (findLeftmost l g).isSome ↔ ∃ x ∈ l, g / 2 ≤ x.rectX := by
  unfold findLeftmost
  rw [List.enum, findLeftmost_isSome_aux]
  simp [List.any_eq_true]

theorem foldl_handleResize (t : ℕ) :
    ∀ (ts : List ℕ) (s : WidgetState),
      (ts ++ [t]).foldl (fun st τ => handleResize τ st) s =
        { s with resizeTimer := some (t + 250) } := by
  intro ts
  induction ts with
  | nil => intro s; rfl
  | cons a ts ih =>
    intro s
    rw [List.cons_append, List.foldl_cons, ih]
    rfl

/-! ## Claim theorems -/

/--
**C1.** Alignment recomputation adds the `--center-items` modifier class
exactly when the summed content width (each item's width plus its
preceding gap, list-edge padding for the first item and the inter-item
gap thereafter) is at most the element's rendered width, and removes it
otherwise; at exact equality the class is added.
-/
theorem adjustAlignment_centered_iff (widths : List ℚ)
    (itemGap listPad elementWidth : ℚ) (base : String) (classes : List String) :
    (base ++ "--center-items") ∈
        adjustAlignmentClasses widths itemGap listPad elementWidth base classes ↔
      itemsTotalWidth widths itemGap listPad ≤ elementWidth := by
  unfold adjustAlignmentClasses
  by_cases h : itemsTotalWidth widths itemGap listPad > elementWidth
  · simp only [h, if_true]
    constructor
    · intro hmem
      exact absurd hmem (not_mem_classListRemove_self _ _)
    · intro hle
      exact absurd hle (not_le.mpr h)
  · simp only [h, if_false]
    constructor
    · intro _
      exact le_of_not_lt h
    · intro _
      exact mem_classListAdd_self _ _

/--
**C2.** For a forward (direction = 1) calculation, the new offset equals
current offset + the leftmost fully visible item's rect x + (adjusted
increment × (item width + gap)) − half the gap, where the adjusted
increment is the configured increment when the leftmost item sits exactly
at its inset (list padding if it is the first item, half the gap
otherwise) and one less than it otherwise.  Instantiated at increment 1,
item width 300, gap 24, padding 16, offset 0 and the first item at x = 16
this yields 0 + 16 + 1×324 − 12 = 328 (see the witness).
-/
theorem forward_scroll_formula (first : ItemGeom) (rest : List ItemGeom)
    (scrollLeft itemGap listPad scrollIncrement : ℚ) (i : ℕ)
    (leftmost : ItemGeom)
    (h_find : findLeftmost (first :: rest) itemGap = some (i, leftmost)) :
    calculateNewScrollPosition (first :: rest) scrollLeft itemGap listPad
        scrollIncrement true =
      some (scrollLeft + leftmost.rectX +
        (if leftmost.rectX = (if i = 0 then listPad else itemGap / 2)
          then scrollIncrement else scrollIncrement - 1) *
          (first.offsetWidth + itemGap) - itemGap / 2) := by
  simp [calculateNewScrollPosition, h_find, newScrollCore]

/-- Witness for C2: the spec's worked numeric example, offset 328. -/
theorem forward_scroll_formula_witness :
    calculateNewScrollPosition [⟨300, 16⟩] 0 24 16 1 true = some 328 := by
  have h_find : findLeftmost [(⟨300, 16⟩ : ItemGeom)] 24 = some (0, ⟨300, 16⟩) := by
    simp [findLeftmost, List.enum, List.enumFrom, List.find?]
    norm_num
  rw [forward_scroll_formula ⟨300, 16⟩ [] 0 24 16 1 0 ⟨300, 16⟩ h_find]
  norm_num

/--
**C3.** Whenever a backward (direction = 0) calculation is defined and the
current scroll offset is at most item width + list padding + half the
gap, the result is exactly 0, regardless of the other inputs.
-/
theorem backward_snap_to_start (first : ItemGeom) (rest : List ItemGeom)
    (scrollLeft itemGap listPad scrollIncrement : ℚ) (r : ℚ)
    (h_near : scrollLeft ≤ first.offsetWidth + listPad + itemGap / 2)
    (h_def : calculateNewScrollPosition (first :: rest) scrollLeft itemGap
        listPad scrollIncrement false = some r) :
    r = 0 := by
  unfold calculateNewScrollPosition at h_def
  cases h : findLeftmost (first :: rest) itemGap with
  | none => rw [h] at h_def; simp at h_def
  | some il =>
    rw [h] at h_def
    simp only [Option.map_some', Option.some.injEq] at h_def
    rw [← h_def]
    simp [newScrollCore, h_near]

/-- Witness for C3: at offset 100 with item width 300, padding 16, gap 24
the hypotheses hold and the backward result is 0. -/
theorem backward_snap_to_start_witness :
    (100 : ℚ) ≤ 300 + 16 + 24 / 2 ∧ (0 : ℚ) = 0 := by
  constructor
  · norm_num
  · have h_def : calculateNewScrollPosition [⟨300, 16⟩] 100 24 16 1 false =
        some 0 := by
      simp [calculateNewScrollPosition, findLeftmost, List.enum,
        List.enumFrom, List.find?, newScrollCore]
      norm_num
    exact backward_snap_to_start ⟨300, 16⟩ [] 100 24 16 1 0 (by norm_num) h_def

/--
**C5 (counterexample).** The claim fails for scroll-snap: the attribute
string "yes" is neither "true" nor "false", so by the claim the hardcoded
default (false) should apply, yet the source's truthiness test resolves
the option to true.
-/
theorem bool_attr_parse_counterexample :
    resolveScrollSnap (some "yes") = true ∧
      "yes" ≠ "true" ∧ scrollSnapDefault = false := by
  refine ⟨?_, by decide, rfl⟩
  decide

/--
**C5 (amended).** Navigation resolves to false exactly when the attribute
is the string "false", the default true applying otherwise (in particular
for "true").  Scroll-snap resolves to true exactly when the attribute is
present, nonempty and different from "false" — any such string, not only
"true", enables it — the default false applying otherwise.
-/
theorem bool_attr_resolution (attr : Option String) :
    (resolveNavigation attr = false ↔ attr = some "false") ∧
      (resolveScrollSnap attr = true ↔
        ∃ s, attr = some s ∧ s ≠ "" ∧ s ≠ "false") := by
  constructor
  · unfold resolveNavigation navigationDefault
    by_cases h : attr = some "false" <;> simp [h]
  · unfold resolveScrollSnap scrollSnapDefault
    cases attr with
    | none => simp
    | some s =>
      by_cases h1 : s = "" <;> by_cases h2 : s = "false" <;> simp [h1, h2]

/--
**C6.** Whenever the `data-scroll-increment` attribute is missing or its
string fails the numeric coercion (NaN), configuration resolution keeps
the hardcoded default increment 1; resolution is a total function, so no
exception is possible.
-/
theorem scroll_increment_default_on_bad_attr (attr : Option String)
    (h : jsNumberOfAttr attr = none) :
    resolveScrollIncrement attr = 1 := by
  unfold resolveScrollIncrement
  rw [h]
  rfl

/-- Witness for C6: the non-numeric attribute "abc" fails to parse and the
increment stays 1. -/
theorem scroll_increment_default_witness :
    jsNumberOfAttr (some "abc") = none ∧
      resolveScrollIncrement (some "abc") = 1 := by
  have h : jsNumberOfAttr (some "abc") = none := by decide
  exact ⟨h, scroll_increment_default_on_bad_attr (some "abc") h⟩

/--
**C10.** The offset calculation is defined exactly when some item's rect x
is at or past half the inter-item gap: with an empty item list, or with
every item's rect x strictly left of that threshold, the search for the
leftmost fully visible item fails and the calculation is undefined.
-/
theorem scroll_calc_defined_iff (items : List ItemGeom)
    (scrollLeft itemGap listPad scrollIncrement : ℚ) (direction : Bool) :
    (calculateNewScrollPosition items scrollLeft itemGap listPad
        scrollIncrement direction).isSome ↔
      ∃ x ∈ items, itemGap / 2 ≤ x.rectX := by
  cases items with
  | nil => simp [calculateNewScrollPosition]
  | cons first rest =>
    rw [← findLeftmost_isSome (first :: rest) itemGap]
    unfold calculateNewScrollPosition
    cases h : findLeftmost (first :: rest) itemGap <;> simp [h]

/--
**C4.** Every resize event overwrites the (at most one) pending debounce
timer with a deadline 250 units after itself, so after any burst of
resize events ending at time `t` exactly one recomputation is pending,
due at `t + 250`, and none has executed during the burst (the state is
unchanged apart from the timer); when time then reaches `T`, the
surviving recomputation executes exactly when the full quiet interval has
elapsed (`t + 250 ≤ T`), re-reading the gap and padding metrics from
computed style and recomputing alignment with those fresh metrics, and
otherwise nothing executes.
-/
theorem resize_debounce (s : WidgetState) (ts : List ℕ) (t T : ℕ)
    (style : ComputedStyle) :
    (ts ++ [t]).foldl (fun st τ => handleResize τ st) s =
      { s with resizeTimer := some (t + 250) } ∧
    elapse style T { s with resizeTimer := some (t + 250) } =
      (if t + 250 ≤ T then
        { s with resizeTimer := none
                 itemGap := style.itemGapPx
                 listPad := style.listPadPx
                 classes := adjustAlignmentClasses s.itemWidths
                   style.itemGapPx style.listPadPx s.elementWidth
                   s.baseClassName s.classes
                 recomputeCount := s.recomputeCount + 1 }
       else { s with resizeTimer := some (t + 250) }) := by
  refine ⟨foldl_handleResize t ts s, ?_⟩
  unfold elapse resizeTimerCallback
  by_cases h : t + 250 ≤ T <;> simp [h]

/--
**C7.** With scroll-snap resolved true, construction adds the snap
modifier class exactly once (its count becomes 1 when it was absent);
with scroll-snap false it is never added; and no other operation removes
it: alignment recomputation and the debounce timer callback — the only
operations of the widget that rewrite the class list, the offset
calculator and the tween plan being pure value computations — both
preserve its membership.
-/
theorem snap_class_once_and_kept (base : String) (classes cls : List String)
    (widths : List ℚ) (itemGap listPad elementWidth : ℚ)
    (style : ComputedStyle) (s : WidgetState)
    (h_new : (base ++ "--snap") ∉ classes)
    (h_in : (base ++ "--snap") ∈ cls)
    (h_in_s : (s.baseClassName ++ "--snap") ∈ s.classes) :
    (constructorSnapClasses base true classes).count (base ++ "--snap") = 1 ∧
    constructorSnapClasses base false classes = classes ∧
    (base ++ "--snap") ∈ adjustAlignmentClasses widths itemGap listPad
      elementWidth base cls ∧
    (s.baseClassName ++ "--snap") ∈ (resizeTimerCallback style s).classes := by
  refine ⟨?_, rfl, ?_, ?_⟩
  · unfold constructorSnapClasses classListAdd
    simp [h_new, List.count_append, List.count_eq_zero.mpr h_new]
  · exact mem_adjustAlignmentClasses_of_mem_ne widths itemGap listPad
      elementWidth base _ cls h_in (snap_ne_center base)
  · unfold resizeTimerCallback
    exact mem_adjustAlignmentClasses_of_mem_ne s.itemWidths style.itemGapPx
      style.listPadPx s.elementWidth s.baseClassName _ s.classes h_in_s
      (snap_ne_center s.baseClassName)

/-- Witness for C7: with base class "horizontal-scroll", an initially
empty class list and an instance whose class list holds the snap class,
all hypotheses hold and construction yields snap-class count 1. -/
theorem snap_class_once_and_kept_witness :
    (constructorSnapClasses "horizontal-scroll" true []).count
        ("horizontal-scroll" ++ "--snap") = 1 := by
  have h_new : ("horizontal-scroll" ++ "--snap") ∉ ([] : List String) := by
    simp
  have h_in : ("horizontal-scroll" ++ "--snap") ∈
      ["horizontal-scroll" ++ "--snap"] := by simp
  have h_in_s :
      ((WidgetState.mk none 0 0 [] 0 "horizontal-scroll"
          ["horizontal-scroll" ++ "--snap"] 0).baseClassName ++ "--snap") ∈
        (WidgetState.mk none 0 0 [] 0 "horizontal-scroll"
          ["horizontal-scroll" ++ "--snap"] 0).classes := by simp
  exact (snap_class_once_and_kept "horizontal-scroll" []
    ["horizontal-scroll" ++ "--snap"] [] 0 0 0 ⟨0, 0⟩
    (WidgetState.mk none 0 0 [] 0 "horizontal-scroll"
      ["horizontal-scroll" ++ "--snap"] 0) h_new h_in h_in_s).1

/--
**C8.** When the navigation option resolves to false, construction builds
no nav landmark and no buttons, prepends nothing to the container's child
list, and registers no click listeners.
-/
theorem no_navigation_no_dom (cfg : Config) (children : List String)
    (h : cfg.navigation = false) :
    buildNavigation cfg = none ∧
    constructorChildren cfg children = children ∧
    constructorClickListenerCount cfg = 0 := by
  unfold buildNavigation constructorChildren constructorClickListenerCount
  simp [h]

/-- Witness for C8: a concrete configuration with navigation disabled
builds no nav markup. -/
theorem no_navigation_no_dom_witness :
    buildNavigation
        ⟨"horizontal-scroll", false, "Scroll backwards", "Scroll forwards",
          "Horizontal scroll", "<", ">", 1, false⟩ = none :=
  (no_navigation_no_dom
    ⟨"horizontal-scroll", false, "Scroll backwards", "Scroll forwards",
      "Horizontal scroll", "<", ">", 1, false⟩ [] rfl).1

/--
**C9.** Whenever the scroll-animation trigger produces a tween
invocation, its duration is 1 when the platform signals a reduced-motion
preference and 400 otherwise, and the computed target offset is exactly
the offset calculator's result — identical whether or not the preference
is signalled.
-/
theorem reduced_motion_duration (items : List ItemGeom)
    (scrollLeft itemGap listPad scrollIncrement : ℚ)
    (direction prefersReducedMotion : Bool) (plan : ℚ × ℚ × ℕ)
    (h : updateScrollPlan items scrollLeft itemGap listPad scrollIncrement
        direction prefersReducedMotion = some plan) :
    plan.2.2 = (if prefersReducedMotion then 1 else 400) ∧
    calculateNewScrollPosition items scrollLeft itemGap listPad
        scrollIncrement direction = some plan.2.1 ∧
    (updateScrollPlan items scrollLeft itemGap listPad scrollIncrement
        direction true).map (fun p => p.2.1) =
      (updateScrollPlan items scrollLeft itemGap listPad scrollIncrement
        direction false).map (fun p => p.2.1) := by
  unfold updateScrollPlan at h ⊢
  cases hc : calculateNewScrollPosition items scrollLeft itemGap listPad
      scrollIncrement direction with
  | none => rw [hc] at h; simp at h
  | some newPos =>
    rw [hc] at h
    simp only [Option.some.injEq] at h
    rw [← h]
    exact ⟨rfl, rfl, rfl⟩

/-- Witness for C9: on the spec's worked forward example the plan exists,
with duration 1 under reduced motion. -/
theorem reduced_motion_duration_witness :
    ((0, 328, 1) : ℚ × ℚ × ℕ).2.2 = (if (true : Bool) then 1 else 400) := by
  have hc : calculateNewScrollPosition [⟨300, 16⟩] 0 24 16 1 true =
      some 328 := by
    simp [calculateNewScrollPosition, findLeftmost, List.enum,
      List.enumFrom, List.find?, newScrollCore]
    use 0, ⟨300, 16⟩
    norm_num
  have h : updateScrollPlan [⟨300, 16⟩] 0 24 16 1 true true =
      some (0, 328, 1) := by
    unfold updateScrollPlan
    rw [hc]
    rfl
  exact (reduced_motion_duration [⟨300, 16⟩] 0 24 16 1 true true
    (0, 328, 1) h).1

end HorizontalScroll
